import Mathlib

/-!
Shallow embedding of the reference VMM (`src/vmm/src/lib.rs` and
`src/api-cpp/src/lib.rs`) together with theorems about its lifecycle
orchestration: guest address-space construction, KVM capability gating,
kernel boot configuration, vCPU creation, device activation and the
event loop.

External collaborators (KVM ioctls, the ELF loader, `vm-memory`,
`event-manager`, ...) are modelled as host parameters whose outcomes
(success or a numeric error code) are supplied explicitly; the control
flow, error mapping and state layout are translated from the source.
-/

namespace VmmRef

/-- First address past 32 bits (`FIRST_ADDR_PAST_32BITS: u64 = 1 << 32`). -/
def FIRST_ADDR_PAST_32BITS : Nat := 1 <<< 32

/-- Size of the MMIO gap (`MEM_32BIT_GAP_SIZE: u64 = 768 << 20`). -/
def MEM_32BIT_GAP_SIZE : Nat := 768 <<< 20

/-- The start of the memory area reserved for MMIO devices
(`MMIO_MEM_START = FIRST_ADDR_PAST_32BITS - MEM_32BIT_GAP_SIZE`). -/
def MMIO_MEM_START : Nat := FIRST_ADDR_PAST_32BITS - MEM_32BIT_GAP_SIZE

/-- Address of the zeropage, where Linux kernel boot parameters are written
(`ZEROPG_START: u64 = 0x7000`). -/
def ZEROPG_START : Nat := 0x7000

/-- Address where the kernel command line is written
(`CMDLINE_START: u64 = 0x0002_0000`). -/
def CMDLINE_START : Nat := 0x00020000

/-- The KVM API version the VMM is built against
(`kvm_bindings::KVM_API_VERSION`, which is 12 on Linux). -/
def KVM_API_VERSION : Int := 12

/-- `u64::checked_sub`: `none` when the subtraction would underflow. -/
def checked_sub (a b : Nat) : Option Nat :=
  if a < b then none else some (a - b)

/-- Memory configuration (`MemoryConfig \x7b mem_size_mib \x7d`). -/
structure MemoryConfig where
  mem_size_mib : Nat
deriving DecidableEq

/-- vCPU configuration (`VcpuConfig \x7b num_vcpus \x7d`). -/
structure VcpuConfig where
  num_vcpus : Nat
deriving DecidableEq

/-- Kernel configuration (`KernelConfig \x7b path, cmdline, himem_start \x7d`). -/
structure KernelConfig where
  path : String
  cmdline : String
  himem_start : Nat
deriving DecidableEq

/-- Top-level VMM configuration (`VMMConfig`). -/
structure VMMConfig where
  memory_config : MemoryConfig
  vcpu_config : VcpuConfig
  kernel_config : KernelConfig
deriving DecidableEq

/-- The guest memory regions computed by `VMM::create_guest_memory`,
as `(base, length)` pairs in bytes.  Mirrors

```
let mem_size = ((memory_config.mem_size_mib as u64) << 20) as usize;
let mem_regions = match mem_size.checked_sub(MMIO_MEM_START as usize) \x7b
    None | Some(0) => vec![(GuestAddress(0), mem_size)],
    Some(remaining) => vec![
        (GuestAddress(0), MMIO_MEM_START as usize),
        (GuestAddress(FIRST_ADDR_PAST_32BITS), remaining),
    ],
\x7d;
```

(the subsequent `GuestMemoryMmap::from_ranges` call is an external
mapping primitive and is modelled separately as a host outcome). -/
def create_guest_memory_regions (mem_size_mib : Nat) : List (Nat × Nat) :=
  match checked_sub (mem_size_mib <<< 20) MMIO_MEM_START with
  | none => [(0, mem_size_mib <<< 20)]
  | some 0 => [(0, mem_size_mib <<< 20)]
  | some remaining => [(0, MMIO_MEM_START), (FIRST_ADDR_PAST_32BITS, remaining)]

/-- Total number of bytes covered by a region list. -/
def regions_total_bytes (rs : List (Nat × Nat)) : Nat :=
  (rs.map Prod.snd).sum

/-- A region `(base, len)` overlaps the half-open byte window `[lo, hi)`. -/
def region_overlaps (r : Nat × Nat) (lo hi : Nat) : Prop :=
  r.1 < hi ∧ lo < r.1 + r.2

instance (r : Nat × Nat) (lo hi : Nat) : Decidable (region_overlaps r lo hi) :=
  inferInstanceAs (Decidable (And _ _))

/-!
The event loop at the end of `VMM::run`:

```
loop \x7b
    match self.event_mgr.run() \x7b
        Ok(_) => (),
        Err(e) => eprintln!("Failed to handle events: \x7b:?\x7d", e),
    \x7d
\x7d
```

Neither match arm breaks out of the loop: an `Ok` batch is dropped and an
`Err` is printed, after which the next iteration runs unconditionally.  We
model a finite prefix of the infinite iteration stream by the list of
results that successive `event_mgr.run()` calls return; the loop body is
translated per element, and the recursive call appearing in both branches
reflects that no branch terminates the loop.
-/

/-- What one event-loop iteration did with the result of `event_mgr.run()`:
an `Ok` batch is simply handled, an `Err` is logged to stderr. -/
inductive EventLoopStep where
  | handled : EventLoopStep
  | logged : Nat → EventLoopStep
deriving DecidableEq

/-- Run the event loop over a finite prefix of `event_mgr.run()` results
(`Except e u` standing for Rust's `Result<u, e>` with numeric error
codes).  Translated from the `loop`/`match` in `VMM::run`. -/
def vmm_event_loop : List (Except Nat Unit) → List EventLoopStep
  | [] => []
  | .ok _ :: rest => .handled :: vmm_event_loop rest
  | .error e :: rest => .logged e :: vmm_event_loop rest

/-- The KVM capabilities the VMM cares about
(`kvm_ioctls::Cap::\x7bIrqchip, Ioeventfd, Irqfd, UserMemory\x7d`). -/
inductive Cap where
  | Irqchip : Cap
  | Ioeventfd : Cap
  | Irqfd : Cap
  | UserMemory : Cap
deriving DecidableEq

/-- VMM memory related errors (`enum MemoryError`); external error payloads
are numeric codes. -/
inductive MemoryError where
  | NotEnoughMemorySlots : MemoryError
  | VmMemory : Nat → MemoryError
deriving DecidableEq

/-- VMM errors (`enum Error`).  External error payloads (`configurator`,
`boot`, `cmdline`, `loader`, `io`, `kvm_ioctls`, `event_manager`, `vm`
errors) are numeric codes; the source constructor `IO` is rendered here as
`IOError`. -/
inductive Error where
  | BootConfigure : Nat → Error
  | BootParam : Nat → Error
  | Cmdline : Nat → Error
  | Device : Nat → Error
  | EventManager : Nat → Error
  | IOError : Nat → Error
  | KernelLoad : Nat → Error
  | KvmApiVersion : Int → Error
  | KvmCap : Cap → Error
  | KvmIoctl : Nat → Error
  | Memory : MemoryError → Error
  | Vm : Nat → Error
deriving DecidableEq

/-- Result of running a fallible Rust function that may also panic
(`unwrap`/`expect` on an `Err`). -/
inductive Outcome (α : Type) where
  | ok : α → Outcome α
  | err : Error → Outcome α
  | panicked : Outcome α
deriving DecidableEq

/-- The boot-parameter header fields the VMM mutates
(`boot_params.hdr.cmd_line_ptr` and `boot_params.hdr.cmdline_size`,
both `u32`). -/
structure BootParamsHdr where
  cmd_line_ptr : Nat
  cmdline_size : Nat
deriving DecidableEq

/-- The `boot_params` blob: the header plus an abstract code standing for
everything `build_bootparams` computed (memory map entries etc.). -/
structure BootParamsBlob where
  hdr : BootParamsHdr
  rest : Nat
deriving DecidableEq

/-- Per-vCPU state handed to the execution-context constructor
(`vm_vcpu::vcpu::VcpuState`); the CPUID entry list is abstracted to a
list of numeric entries. -/
structure VcpuState where
  kernel_load_addr : Nat
  cpuid : List Nat
  id : Nat
  zero_page_start : Nat
deriving DecidableEq

/-- Observable calls into the host hypervisor / guest memory made by the
VMM, in program order.  An effect is recorded when the corresponding
external call is attempted. -/
inductive Effect where
  | CreateGuestMemory : List (Nat × Nat) → Effect
  | CreateVm : Nat → Effect
  | CreateEventManager : Effect
  | RegisterPioDevice : Nat → Nat → Effect
  | OpenKernelFile : String → Effect
  | LoadKernel : Nat → Effect
  | BuildBootparams : Effect
  | LoadCmdline : Nat → String → Effect
  | WriteBootparams : Nat → BootParamsBlob → Effect
  | CreateVcpu : Nat → VcpuState → Effect
  | SetupInterrupt : Nat → Effect
  | AddSubscriber : Nat → Effect
  | StartVcpus : Effect
deriving DecidableEq

/-- Does an effect create guest memory or VM state on the hypervisor? -/
def Effect.creates_vm_state : Effect → Bool
  | .CreateGuestMemory _ => true
  | .CreateVm _ => true
  | _ => false

/-- Outcomes of the external calls `VMM::new` makes, supplied by the host:
`none` means the call succeeds, `some e` that it fails with error code
`e`.  `supports` is what `kvm.check_extension` reports per capability and
`api_version` what `kvm.get_api_version` returns. -/
structure Host where
  kvm_new_err : Option Nat
  api_version : Int
  supports : Cap → Bool
  from_ranges_err : Option Nat
  kvm_vm_new_err : Option Nat
  event_mgr_new_err : Option Nat
  eventfd_new_err : Option Nat
  eventfd_clone_err : Option Nat
  register_pio_ok : Bool

/-- The ordered list of required capabilities from
`VMM::check_kvm_capabilities`: `vec![Irqchip, Ioeventfd, Irqfd, UserMemory]`. -/
def required_capabilities : List Cap :=
  [Cap.Irqchip, Cap.Ioeventfd, Cap.Irqfd, Cap.UserMemory]

/-- `VMM::check_kvm_capabilities`: find the first required capability the
host does not support and fail with `Error::KvmCap` naming it. -/
def check_kvm_capabilities (supports : Cap → Bool) : Except Error Unit :=
  match required_capabilities.find? (fun c => !(supports c)) with
  | some c => .error (.KvmCap c)
  | none => .ok ()

/-- The VMM state assembled by construction (`struct VMM`), with external
handles abstracted: the guest memory is its region list, the device
manager a token wrapped in `Option` (so it can be `.take()`n when creating
vCPUs), devices are numeric ids. -/
structure VMMState where
  guest_memory_regions : List (Nat × Nat)
  num_vcpus : Nat
  device_mgr : Option Nat
  pio_registrations : List (Nat × Nat)
  dormant_devices : List Nat
deriving DecidableEq

/-- `VMM::configure_pio_devices`: create the serial console's interrupt
eventfd, clone it, wrap the serial device and register it on the PIO bus
at `base: 0x3f8, size: 0x8` (the `register_pio_resources` result is
`.unwrap()`ed, so a registration failure is a panic).  The serial device
is registered on the bus only — it is never pushed onto
`dormant_devices`. -/
def configure_pio_devices (h : Host) (s : VMMState) : Outcome VMMState × List Effect :=
  match h.eventfd_new_err with
  | some e => (.err (.IOError e), [])
  | none =>
    match h.eventfd_clone_err with
    | some e => (.err (.IOError e), [])
    | none =>
      if h.register_pio_ok then
        (.ok { s with pio_registrations := s.pio_registrations ++ [(0x3f8, 0x8)] },
         [.RegisterPioDevice 0x3f8 0x8])
      else
        (.panicked, [.RegisterPioDevice 0x3f8 0x8])

/-- `VMM::new`: create the KVM handle, check the API version, check the
required capabilities, create guest memory, create the `KvmVm`, build the
VMM value (fresh `IoManager`, fresh `EventManager`, empty
`dormant_devices`), then configure the PIO devices. -/
def vmm_new (h : Host) (config : VMMConfig) : Outcome VMMState × List Effect :=
  match h.kvm_new_err with
  | some e => (.err (.KvmIoctl e), [])
  | none =>
    if h.api_version = KVM_API_VERSION then
      match check_kvm_capabilities h.supports with
      | .error e => (.err e, [])
      | .ok _ =>
        let regions := create_guest_memory_regions config.memory_config.mem_size_mib
        match h.from_ranges_err with
        | some e => (.err (.Memory (.VmMemory e)), [.CreateGuestMemory regions])
        | none =>
          match h.kvm_vm_new_err with
          | some e =>
            (.err (.Vm e),
             [.CreateGuestMemory regions, .CreateVm config.vcpu_config.num_vcpus])
          | none =>
            match h.event_mgr_new_err with
            | some e =>
              (.err (.EventManager e),
               [.CreateGuestMemory regions, .CreateVm config.vcpu_config.num_vcpus,
                .CreateEventManager])
            | none =>
              let vmm : VMMState :=
                { guest_memory_regions := regions
                  num_vcpus := config.vcpu_config.num_vcpus
                  device_mgr := some 0
                  pio_registrations := []
                  dormant_devices := [] }
              let pre : List Effect :=
                [.CreateGuestMemory regions, .CreateVm config.vcpu_config.num_vcpus,
                 .CreateEventManager]
              match configure_pio_devices h vmm with
              | (.ok vmm2, tr) => (.ok vmm2, pre ++ tr)
              | (.err e, tr) => (.err e, pre ++ tr)
              | (.panicked, tr) => (.panicked, pre ++ tr)
    else
      (.err (.KvmApiVersion h.api_version), [])

/-- Outcomes of the external calls `VMM::configure_kernel` makes:
`File::open`, `Elf::load` (returning the `KernelLoaderResult`, abstracted
to the kernel load address), `build_bootparams` (returning the
`boot_params` before the command-line fields are filled in),
`Cmdline::insert_str`, `load_cmdline` and
`LinuxBootConfigurator::write_bootparams`. -/
structure BootHost where
  open_err : Option Nat
  elf_load_res : Except Nat Nat
  build_bootparams_res : Except Nat BootParamsBlob
  insert_str_err : Option Nat
  load_cmdline_err : Option Nat
  write_bootparams_err : Option Nat

/-- The two header stores of `VMM::configure_kernel`:
`bootparams.hdr.cmd_line_ptr = CMDLINE_START as u32` and
`bootparams.hdr.cmdline_size = kernel_cfg.cmdline.len() as u32 + 1`
(`u32` arithmetic, hence the `% 2^32`). -/
def bootparams_with_cmdline (bp0 : BootParamsBlob) (cmdline : String) :
    BootParamsBlob :=
  { bp0 with hdr :=
    { cmd_line_ptr := CMDLINE_START % 2 ^ 32
      cmdline_size := (cmdline.length % 2 ^ 32 + 1) % 2 ^ 32 } }

/-- `VMM::configure_kernel`: open the kernel file, load the ELF at
`himem_start`, build the boot parameters, store the command-line address
and size in their header (`bootparams_with_cmdline`), insert the
command-line string, write it into guest memory at `CMDLINE_START`, and
finally write the boot parameters at the zeropage `ZEROPG_START`.  Each
`?` on a failing step returns the typed error at once, so later effects
never happen. -/
def configure_kernel (h : BootHost) (kernel_cfg : KernelConfig) :
    Except Error Nat × List Effect :=
  match h.open_err with
  | some e => (.error (.IOError e), [.OpenKernelFile kernel_cfg.path])
  | none =>
    match h.elf_load_res with
    | .error e =>
      (.error (.KernelLoad e),
       [.OpenKernelFile kernel_cfg.path, .LoadKernel kernel_cfg.himem_start])
    | .ok kernel_load =>
      match h.build_bootparams_res with
      | .error e =>
        (.error (.BootParam e),
         [.OpenKernelFile kernel_cfg.path, .LoadKernel kernel_cfg.himem_start,
          .BuildBootparams])
      | .ok bp0 =>
        match h.insert_str_err with
        | some e =>
          (.error (.Cmdline e),
           [.OpenKernelFile kernel_cfg.path, .LoadKernel kernel_cfg.himem_start,
            .BuildBootparams])
        | none =>
          match h.load_cmdline_err with
          | some e =>
            (.error (.KernelLoad e),
             [.OpenKernelFile kernel_cfg.path, .LoadKernel kernel_cfg.himem_start,
              .BuildBootparams, .LoadCmdline CMDLINE_START kernel_cfg.cmdline])
          | none =>
            match h.write_bootparams_err with
            | some e =>
              (.error (.BootConfigure e),
               [.OpenKernelFile kernel_cfg.path, .LoadKernel kernel_cfg.himem_start,
                .BuildBootparams, .LoadCmdline CMDLINE_START kernel_cfg.cmdline,
                .WriteBootparams ZEROPG_START
                  (bootparams_with_cmdline bp0 kernel_cfg.cmdline)])
            | none =>
              (.ok kernel_load,
               [.OpenKernelFile kernel_cfg.path, .LoadKernel kernel_cfg.himem_start,
                .BuildBootparams, .LoadCmdline CMDLINE_START kernel_cfg.cmdline,
                .WriteBootparams ZEROPG_START
                  (bootparams_with_cmdline bp0 kernel_cfg.cmdline)])

/-- Outcomes of the external calls `VMM::create_vcpus` makes:
`kvm.get_supported_cpuid` (the base CPUID set), `filter_cpuid` (the
external per-index filtering from `vm_vcpu::vcpu::cpuid`), and
`vm.create_vcpu` per index (`none` = success). -/
structure VcpuHost where
  supported_cpuid_res : Except Nat (List Nat)
  filter_cpuid : Nat → Nat → List Nat → List Nat
  create_vcpu_err : Nat → Option Nat

/-- The body of the `for index in 0..vcpu_cfg.num_vcpus` loop of
`VMM::create_vcpus`, over the remaining index list: clone the base CPUID,
filter it for `(index, num_vcpus)`, build the `VcpuState` (with
`zero_page_start = ZEROPG_START`) and call `vm.create_vcpu` with the
shared device manager; a failing creation returns `Error::Vm` at once. -/
def create_vcpus_loop (vh : VcpuHost) (dm : Nat) (num_vcpus : Nat)
    (kernel_load : Nat) (base : List Nat) :
    List Nat → Except Error Unit × List Effect
  | [] => (.ok (), [])
  | index :: rest =>
    let cpuid := vh.filter_cpuid index num_vcpus base
    let vcpu_state : VcpuState :=
      { kernel_load_addr := kernel_load
        cpuid := cpuid
        id := index
        zero_page_start := ZEROPG_START }
    match vh.create_vcpu_err index with
    | some e => (.error (.Vm e), [])
    | none =>
      match create_vcpus_loop vh dm num_vcpus kernel_load base rest with
      | (res, tr) => (res, .CreateVcpu dm vcpu_state :: tr)

/-- `VMM::create_vcpus`: `.take()` the device manager out of its `Option`
(panicking if absent, which `new` makes impossible), share it, fetch the
base supported CPUID set, then run the creation loop over
`0..num_vcpus`. -/
def create_vcpus (vh : VcpuHost) (s : VMMState) (vcpu_cfg : VcpuConfig)
    (kernel_load : Nat) : Outcome VMMState × List Effect :=
  match s.device_mgr with
  | none => (.panicked, [])
  | some dm =>
    match vh.supported_cpuid_res with
    | .error e => (.err (.KvmIoctl e), [])
    | .ok base_cpuid =>
      match create_vcpus_loop vh dm vcpu_cfg.num_vcpus kernel_load base_cpuid
          (List.range vcpu_cfg.num_vcpus) with
      | (.ok _, tr) => (.ok { s with device_mgr := none }, tr)
      | (.error e, tr) => (.err e, tr)

/-- `impl TryFrom<VMMConfig> for VMM`: `VMM::new`, then
`configure_kernel`, then `create_vcpus` at the returned kernel load
address; any failing step propagates its error and aborts the chain. -/
def vmm_try_from (h : Host) (bh : BootHost) (vh : VcpuHost)
    (config : VMMConfig) : Outcome VMMState × List Effect :=
  match vmm_new h config with
  | (.ok s, tr1) =>
    match configure_kernel bh config.kernel_config with
    | (.ok kernel_load, tr2) =>
      match create_vcpus vh s config.vcpu_config kernel_load with
      | (out, tr3) => (out, tr1 ++ tr2 ++ tr3)
    | (.error e, tr2) => (.err e, tr1 ++ tr2)
  | (.err e, tr1) => (.err e, tr1)
  | (.panicked, tr1) => (.panicked, tr1)

/-- The activation pass at the start of `VMM::run`:

```
for device in self.dormant_devices.drain(..) \x7b
    <dyn DormantDevice as WithInterruptNotif>::setup_interrupt_notif(&device, &mut self.vm)
        .unwrap();
    self.event_mgr.add_subscriber(device);
\x7d
```

`wire_ok d` is whether wiring device `d`'s interrupt path succeeds; a
failure is `.unwrap()`ed, i.e. a panic that stops the pass (`false` in
the returned flag). -/
def activate_devices (wire_ok : Nat → Bool) :
    List Nat → List Effect × Bool
  | [] => ([], true)
  | d :: rest =>
    if wire_ok d then
      match activate_devices wire_ok rest with
      | (tr, ok) => (.SetupInterrupt d :: .AddSubscriber d :: tr, ok)
    else
      ([.SetupInterrupt d], false)

/-- `VMM::run` up to the event loop: activate every dormant device, then
`self.vm.run().expect(..)` (recorded as a `StartVcpus` attempt; its
failure is a panic).  The returned flag says whether the event loop was
reached. -/
def vmm_run (wire_ok : Nat → Bool) (vm_run_ok : Bool) (s : VMMState) :
    List Effect × Bool :=
  match activate_devices wire_ok s.dormant_devices with
  | (tr, true) => (tr ++ [.StartVcpus], vm_run_ok)
  | (tr, false) => (tr, false)

/-- The cxx shadow struct `ffi::KernelConfig` from `src/api-cpp/src/lib.rs`. -/
structure FfiKernelConfig where
  cmdline : String
  path : String
  himem_start : Nat
deriving DecidableEq

/-- The conversion `impl Into<vmm::KernelConfig> for ffi::KernelConfig`:

```
vmm::KernelConfig \x7b
    path: PathBuf::from(self.path),
    ..Default::default()
\x7d
```

`Default::default()` for `vmm::KernelConfig` lives in the `config` module;
its concrete value is passed in as `dflt` so the conversion itself is
captured exactly: only `path` is taken from the ffi value, every other
field comes from the default. -/
def ffi_kernel_config_into (dflt : KernelConfig) (f : FfiKernelConfig) : KernelConfig :=
  { path := f.path
    cmdline := dflt.cmdline
    himem_start := dflt.himem_start }

/-- A sample VMM configuration used to evaluate the model at concrete
inputs. -/
def config_example : VMMConfig :=
  { memory_config := { mem_size_mib := 1024 }
    vcpu_config := { num_vcpus := 2 }
    kernel_config :=
      { path := "vmlinux"
        cmdline := "console=ttyS0"
        himem_start := 0x100000 } }

/-- A host whose KVM reports the right API version but supports only
`Irqchip` and `Ioeventfd`. -/
def host_missing_irqfd : Host :=
  { kvm_new_err := none
    api_version := KVM_API_VERSION
    supports := fun c =>
      match c with
      | .Irqchip => true
      | .Ioeventfd => true
      | _ => false
    from_ranges_err := none
    kvm_vm_new_err := none
    event_mgr_new_err := none
    eventfd_new_err := none
    eventfd_clone_err := none
    register_pio_ok := true }

/-- A fully capable host on which every external call succeeds. -/
def host_all_ok : Host :=
  { kvm_new_err := none
    api_version := KVM_API_VERSION
    supports := fun _ => true
    from_ranges_err := none
    kvm_vm_new_err := none
    event_mgr_new_err := none
    eventfd_new_err := none
    eventfd_clone_err := none
    register_pio_ok := true }

/-- A boot host on which every external call of `configure_kernel`
succeeds; the ELF entry is at `0x1000000` and `build_bootparams` returns
a blob with code 42. -/
def boot_host_all_ok : BootHost :=
  { open_err := none
    elf_load_res := .ok 0x1000000
    build_bootparams_res := .ok { hdr := { cmd_line_ptr := 0, cmdline_size := 0 }, rest := 42 }
    insert_str_err := none
    load_cmdline_err := none
    write_bootparams_err := none }

/-- A boot host on which the ELF loader fails with code 7. -/
def boot_host_elf_fails : BootHost :=
  { boot_host_all_ok with elf_load_res := .error 7 }

/-- A vCPU host on which every external call succeeds; the CPUID filter
appends the pair (index, total) to the base entries so that masks differ
per index. -/
def vcpu_host_all_ok : VcpuHost :=
  { supported_cpuid_res := .ok [3, 5]
    filter_cpuid := fun index total base => base ++ [index, total]
    create_vcpu_err := fun _ => none }

/-- A vCPU host on which creating vCPU 1 fails with code 9. -/
def vcpu_host_fails_at_one : VcpuHost :=
  { vcpu_host_all_ok with
    create_vcpu_err := fun i => if i = 1 then some 9 else none }

/-- The VMM state produced by a fully successful construction from
`config_example` on `host_all_ok`. -/
def state_all_ok : VMMState :=
  { guest_memory_regions := [(0, 1024 * 2 ^ 20)]
    num_vcpus := 2
    device_mgr := none
    pio_registrations := [(0x3f8, 0x8)]
    dormant_devices := [] }

/-- The VMM state right before `create_vcpus`: the device manager is
still present to be taken. -/
def state_pre_vcpus : VMMState :=
  { state_all_ok with device_mgr := some 0 }

/-- C1 counterexample: for a requested size of 4096 MiB the claimed layout
`[0, 3072MiB)` plus 1024 MiB at 4096 MiB is not what
`create_guest_memory_regions` returns, and the first returned region does
overlap the claimed MMIO gap `[0xC000_0000, 0x1_0000_0000)`. -/
theorem c1_claimed_layout_refuted :
    create_guest_memory_regions 4096 ≠
      [(0, 3072 * 2 ^ 20), (4096 * 2 ^ 20, 1024 * 2 ^ 20)]
    ∧ ∃ r ∈ create_guest_memory_regions 4096,
        region_overlaps r 0xC0000000 FIRST_ADDR_PAST_32BITS := by
  decide

/-- C1 (amended): for a requested size of 4096 MiB,
`create_guest_memory_regions` returns exactly two regions,
`[0, 3328MiB)` and a region of length 768 MiB starting at 4096 MiB; the
total mapped bytes equal 4096 MiB exactly and no region overlaps the MMIO
gap `[0xD000_0000, 0x1_0000_0000)` that the code reserves. -/
theorem c1_regions_for_4096_mib :
    create_guest_memory_regions 4096 =
      [(0, 3328 * 2 ^ 20), (4096 * 2 ^ 20, 768 * 2 ^ 20)]
    ∧ regions_total_bytes (create_guest_memory_regions 4096) = 4096 * 2 ^ 20
    ∧ ∀ r ∈ create_guest_memory_regions 4096,
        ¬ region_overlaps r MMIO_MEM_START FIRST_ADDR_PAST_32BITS := by
  decide

/-- C7: whenever the requested size `S` MiB satisfies
`S * 2^20 ≤ gap_start` with `gap_start = 4GiB − 768MiB` (that is,
`MMIO_MEM_START`), the builder returns the single region `[0, S)`; in
particular this holds for every `S ≤ 3072`. -/
theorem c7_single_region_below_gap (S : Nat) :
    (S * 2 ^ 20 ≤ MMIO_MEM_START →
      create_guest_memory_regions S = [(0, S * 2 ^ 20)])
    ∧ (S ≤ 3072 →
      create_guest_memory_regions S = [(0, S * 2 ^ 20)]) := by
  have key : S * 2 ^ 20 ≤ MMIO_MEM_START →
      create_guest_memory_regions S = [(0, S * 2 ^ 20)] := by
    intro hS
    unfold create_guest_memory_regions checked_sub
    simp only [Nat.shiftLeft_eq]
    rcases lt_or_eq_of_le hS with h | h
    · rw [if_pos h]
    · rw [h, if_neg (lt_irrefl _), Nat.sub_self]
  refine ⟨key, fun hS => key ?_⟩
  calc S * 2 ^ 20 ≤ 3072 * 2 ^ 20 := Nat.mul_le_mul_right _ hS
    _ ≤ MMIO_MEM_START := by decide

/-- C7 witness at `S = 3072`. -/
theorem c7_single_region_below_gap_witness :
    create_guest_memory_regions 3072 = [(0, 3072 * 2 ^ 20)] :=
  (c7_single_region_below_gap 3072).2 (by decide)

/-- C4 counterexample: a failure of `event_mgr.run()` — including the
event-notification primitive itself failing to poll, which surfaces as
exactly such an `Err` — does not terminate the loop: after an error the
remaining iterations still run, so the trace has length 3, not 1. -/
theorem c4_poll_failure_not_fatal :
    vmm_event_loop [Except.error 7, Except.ok (), Except.ok ()] =
      [EventLoopStep.logged 7, EventLoopStep.handled, EventLoopStep.handled]
    ∧ (vmm_event_loop [Except.error 7, Except.ok (), Except.ok ()]).length ≠ 1 := by
  decide

/-- C4 (amended): every event-handling iteration failure is non-fatal —
each `Err` from `event_mgr.run()` is logged and the loop continues, every
result in the stream is processed (the loop body never breaks), and the
loop itself has no termination condition of its own. -/
theorem c4_event_loop_logs_and_continues (results : List (Except Nat Unit)) :
    vmm_event_loop results =
      results.map (fun r =>
        match r with
        | .ok _ => EventLoopStep.handled
        | .error e => EventLoopStep.logged e)
    ∧ (vmm_event_loop results).length = results.length := by
  have key : vmm_event_loop results =
      results.map (fun r =>
        match r with
        | .ok _ => EventLoopStep.handled
        | .error e => EventLoopStep.logged e) := by
    induction results with
    | nil => rfl
    | cons r rest ih =>
      cases r with
      | ok u => simpa [vmm_event_loop] using ih
      | error e => simpa [vmm_event_loop] using ih
  exact ⟨key, by rw [key, List.length_map]⟩

/-- C10: the C++ CLI bridge conversion for the kernel configuration keeps
only `path`; the caller-supplied `cmdline` and `himem_start` are replaced
by the defaults of `vmm::KernelConfig`. -/
theorem c10_ffi_kernel_config_keeps_only_path (dflt : KernelConfig)
    (f : FfiKernelConfig) :
    (ffi_kernel_config_into dflt f).path = f.path
    ∧ (ffi_kernel_config_into dflt f).cmdline = dflt.cmdline
    ∧ (ffi_kernel_config_into dflt f).himem_start = dflt.himem_start :=
  ⟨rfl, rfl, rfl⟩

/-- The capability check succeeds exactly when every required capability
is supported. -/
theorem check_kvm_capabilities_ok_iff (sup : Cap → Bool) :
    check_kvm_capabilities sup = .ok () ↔
      ∀ c ∈ required_capabilities, sup c = true := by
  cases h1 : sup Cap.Irqchip <;> cases h2 : sup Cap.Ioeventfd <;>
    cases h3 : sup Cap.Irqfd <;> cases h4 : sup Cap.UserMemory <;>
    simp [check_kvm_capabilities, required_capabilities, List.find?, h1, h2, h3, h4]

/-- The capability check reports the first missing capability in the
checked order `Irqchip, Ioeventfd, Irqfd, UserMemory`. -/
theorem check_kvm_capabilities_first_missing (sup : Cap → Bool) :
    (sup Cap.Irqchip = false →
      check_kvm_capabilities sup = .error (.KvmCap Cap.Irqchip))
    ∧ (sup Cap.Irqchip = true → sup Cap.Ioeventfd = false →
      check_kvm_capabilities sup = .error (.KvmCap Cap.Ioeventfd))
    ∧ (sup Cap.Irqchip = true → sup Cap.Ioeventfd = true →
      sup Cap.Irqfd = false →
      check_kvm_capabilities sup = .error (.KvmCap Cap.Irqfd))
    ∧ (sup Cap.Irqchip = true → sup Cap.Ioeventfd = true →
      sup Cap.Irqfd = true → sup Cap.UserMemory = false →
      check_kvm_capabilities sup = .error (.KvmCap Cap.UserMemory)) := by
  refine ⟨fun h1 => ?_, fun h1 h2 => ?_, fun h1 h2 h3 => ?_,
    fun h1 h2 h3 h4 => ?_⟩ <;>
    simp [check_kvm_capabilities, required_capabilities, List.find?, *]

/-- C2: `VMM::new` succeeds only if the reported KVM API version equals
the built-against version and every required capability is present; a
version mismatch fails with `KvmApiVersion` carrying the reported
version; a missing capability fails with `KvmCap` naming the first
missing one in the order `Irqchip, Ioeventfd, Irqfd, UserMemory` (so a
host supporting only `Irqchip` and `Ioeventfd` is reported `Irqfd`); and
whenever either check fails, no guest memory and no VM state is
created. -/
theorem c2_capability_gate (h : Host) (config : VMMConfig) :
    (∀ s, (vmm_new h config).1 = .ok s →
      h.api_version = KVM_API_VERSION
      ∧ ∀ c ∈ required_capabilities, h.supports c = true)
    ∧ (h.kvm_new_err = none → h.api_version ≠ KVM_API_VERSION →
      vmm_new h config = (.err (.KvmApiVersion h.api_version), []))
    ∧ (h.kvm_new_err = none → h.api_version = KVM_API_VERSION →
      h.supports Cap.Irqchip = false →
      vmm_new h config = (.err (.KvmCap Cap.Irqchip), []))
    ∧ (h.kvm_new_err = none → h.api_version = KVM_API_VERSION →
      h.supports Cap.Irqchip = true → h.supports Cap.Ioeventfd = false →
      vmm_new h config = (.err (.KvmCap Cap.Ioeventfd), []))
    ∧ (h.kvm_new_err = none → h.api_version = KVM_API_VERSION →
      h.supports Cap.Irqchip = true → h.supports Cap.Ioeventfd = true →
      h.supports Cap.Irqfd = false →
      vmm_new h config = (.err (.KvmCap Cap.Irqfd), []))
    ∧ (h.kvm_new_err = none → h.api_version = KVM_API_VERSION →
      h.supports Cap.Irqchip = true → h.supports Cap.Ioeventfd = true →
      h.supports Cap.Irqfd = true → h.supports Cap.UserMemory = false →
      vmm_new h config = (.err (.KvmCap Cap.UserMemory), []))
    ∧ ((h.api_version ≠ KVM_API_VERSION
        ∨ ∃ c ∈ required_capabilities, h.supports c = false) →
      ∀ e ∈ (vmm_new h config).2, e.creates_vm_state = false) := by
  refine ⟨?_, ?_, ?_, ?_, ?_, ?_, ?_⟩
  · intro s hs
    rcases hke : h.kvm_new_err with _ | e0
    · by_cases hv : h.api_version = KVM_API_VERSION
      · rcases hcc : check_kvm_capabilities h.supports with e1 | u
        · simp [vmm_new, hke, hv, hcc] at hs
        · cases u
          exact ⟨hv, (check_kvm_capabilities_ok_iff h.supports).mp hcc⟩
      · simp [vmm_new, hke, hv] at hs
    · simp [vmm_new, hke] at hs
  · intro hke hv
    simp [vmm_new, hke, hv]
  · intro hke hv h1
    have hcc := (check_kvm_capabilities_first_missing h.supports).1 h1
    simp [vmm_new, hke, hv, hcc]
  · intro hke hv h1 h2
    have hcc := (check_kvm_capabilities_first_missing h.supports).2.1 h1 h2
    simp [vmm_new, hke, hv, hcc]
  · intro hke hv h1 h2 h3
    have hcc := (check_kvm_capabilities_first_missing h.supports).2.2.1 h1 h2 h3
    simp [vmm_new, hke, hv, hcc]
  · intro hke hv h1 h2 h3 h4
    have hcc := (check_kvm_capabilities_first_missing h.supports).2.2.2 h1 h2 h3 h4
    simp [vmm_new, hke, hv, hcc]
  · intro hbad
    rcases hke : h.kvm_new_err with _ | e0
    · by_cases hv : h.api_version = KVM_API_VERSION
      · rcases hbad with hbad | ⟨c, hmem, hfalse⟩
        · exact absurd hv hbad
        · rcases hcc : check_kvm_capabilities h.supports with e1 | u
          · simp [vmm_new, hke, hv, hcc]
          · exfalso
            cases u
            have hall := (check_kvm_capabilities_ok_iff h.supports).mp hcc
            have htrue := hall c hmem
            rw [hfalse] at htrue
            exact Bool.false_ne_true htrue
      · simp [vmm_new, hke, hv]
    · simp [vmm_new, hke]

/-- C2 witness: on a host supporting only `Irqchip` and `Ioeventfd`,
`VMM::new` fails with `KvmCap Irqfd` and performs no memory or VM
creation. -/
theorem c2_capability_gate_witness :
    vmm_new host_missing_irqfd config_example =
      (.err (.KvmCap Cap.Irqfd), []) :=
  (c2_capability_gate host_missing_irqfd config_example).2.2.2.2.1
    (by decide) (by decide) (by decide) (by decide) (by decide)

/-- C6: the boot steps of `configure_kernel` run in order and each must
succeed before the next begins — witnessed by the exact effect trace in
every case — and a failing step aborts the whole sequence with the typed
error of its stage: `KernelLoad` for kernel loading, `BootParam` for
boot-parameter construction, `Cmdline` for command-line encoding,
`BootConfigure` for the zero-page write. -/
theorem c6_configure_kernel_stages (bh : BootHost) (cfg : KernelConfig) :
    (∀ e, bh.open_err = none → bh.elf_load_res = .error e →
      configure_kernel bh cfg =
        (.error (.KernelLoad e),
         [.OpenKernelFile cfg.path, .LoadKernel cfg.himem_start]))
    ∧ (∀ e kl, bh.open_err = none → bh.elf_load_res = .ok kl →
      bh.build_bootparams_res = .error e →
      configure_kernel bh cfg =
        (.error (.BootParam e),
         [.OpenKernelFile cfg.path, .LoadKernel cfg.himem_start,
          .BuildBootparams]))
    ∧ (∀ e kl bp0, bh.open_err = none → bh.elf_load_res = .ok kl →
      bh.build_bootparams_res = .ok bp0 → bh.insert_str_err = some e →
      configure_kernel bh cfg =
        (.error (.Cmdline e),
         [.OpenKernelFile cfg.path, .LoadKernel cfg.himem_start,
          .BuildBootparams]))
    ∧ (∀ e kl bp0, bh.open_err = none → bh.elf_load_res = .ok kl →
      bh.build_bootparams_res = .ok bp0 → bh.insert_str_err = none →
      bh.load_cmdline_err = some e →
      configure_kernel bh cfg =
        (.error (.KernelLoad e),
         [.OpenKernelFile cfg.path, .LoadKernel cfg.himem_start,
          .BuildBootparams, .LoadCmdline CMDLINE_START cfg.cmdline]))
    ∧ (∀ e kl bp0, bh.open_err = none → bh.elf_load_res = .ok kl →
      bh.build_bootparams_res = .ok bp0 → bh.insert_str_err = none →
      bh.load_cmdline_err = none → bh.write_bootparams_err = some e →
      configure_kernel bh cfg =
        (.error (.BootConfigure e),
         [.OpenKernelFile cfg.path, .LoadKernel cfg.himem_start,
          .BuildBootparams, .LoadCmdline CMDLINE_START cfg.cmdline,
          .WriteBootparams ZEROPG_START
            (bootparams_with_cmdline bp0 cfg.cmdline)]))
    ∧ (∀ kl bp0, bh.open_err = none → bh.elf_load_res = .ok kl →
      bh.build_bootparams_res = .ok bp0 → bh.insert_str_err = none →
      bh.load_cmdline_err = none → bh.write_bootparams_err = none →
      configure_kernel bh cfg =
        (.ok kl,
         [.OpenKernelFile cfg.path, .LoadKernel cfg.himem_start,
          .BuildBootparams, .LoadCmdline CMDLINE_START cfg.cmdline,
          .WriteBootparams ZEROPG_START
            (bootparams_with_cmdline bp0 cfg.cmdline)])) := by
  refine ⟨fun e h1 h2 => ?_, fun e kl h1 h2 h3 => ?_,
    fun e kl bp0 h1 h2 h3 h4 => ?_, fun e kl bp0 h1 h2 h3 h4 h5 => ?_,
    fun e kl bp0 h1 h2 h3 h4 h5 h6 => ?_,
    fun kl bp0 h1 h2 h3 h4 h5 h6 => ?_⟩ <;>
    simp [configure_kernel, *]

/-- C6 witness: with a boot host whose ELF loader fails with code 7, the
sequence aborts after the load attempt with `Error::KernelLoad 7`. -/
theorem c6_configure_kernel_stages_witness :
    configure_kernel boot_host_elf_fails config_example.kernel_config =
      (.error (.KernelLoad 7),
       [.OpenKernelFile config_example.kernel_config.path,
        .LoadKernel config_example.kernel_config.himem_start]) :=
  (c6_configure_kernel_stages boot_host_elf_fails
    config_example.kernel_config).1 7 rfl rfl

/-- C8: on the all-successful path, `configure_kernel` loads the kernel
at the configured `himem_start`, writes the command line at `0x20000`,
writes the boot parameters at the zero page `0x7000`, and the boot
parameters record the command-line pointer `0x20000` and the
command-line size `cmdline length + 1` (whenever that fits in a `u32`,
which every real command line does). -/
theorem c8_boot_addresses (bh : BootHost) (cfg : KernelConfig)
    (kl : Nat) (bp0 : BootParamsBlob)
    (h1 : bh.open_err = none) (h2 : bh.elf_load_res = .ok kl)
    (h3 : bh.build_bootparams_res = .ok bp0) (h4 : bh.insert_str_err = none)
    (h5 : bh.load_cmdline_err = none) (h6 : bh.write_bootparams_err = none)
    (hlen : cfg.cmdline.length + 1 < 2 ^ 32) :
    configure_kernel bh cfg =
      (.ok kl,
       [.OpenKernelFile cfg.path, .LoadKernel cfg.himem_start,
        .BuildBootparams, .LoadCmdline CMDLINE_START cfg.cmdline,
        .WriteBootparams ZEROPG_START
          (bootparams_with_cmdline bp0 cfg.cmdline)])
    ∧ (bootparams_with_cmdline bp0 cfg.cmdline).hdr.cmd_line_ptr = CMDLINE_START
    ∧ (bootparams_with_cmdline bp0 cfg.cmdline).hdr.cmdline_size =
        cfg.cmdline.length + 1
    ∧ ZEROPG_START = 0x7000 ∧ CMDLINE_START = 0x20000 := by
  have hsmall : cfg.cmdline.length < 2 ^ 32 := Nat.lt_of_succ_lt hlen
  refine ⟨by simp [configure_kernel, *], rfl, ?_, by decide, by decide⟩
  show (cfg.cmdline.length % 2 ^ 32 + 1) % 2 ^ 32 = cfg.cmdline.length + 1
  rw [Nat.mod_eq_of_lt hsmall, Nat.mod_eq_of_lt hlen]

/-- C8 witness: evaluated on the all-successful boot host with the
sample configuration. -/
theorem c8_boot_addresses_witness :
    configure_kernel boot_host_all_ok config_example.kernel_config =
      (.ok 0x1000000,
       [.OpenKernelFile config_example.kernel_config.path,
        .LoadKernel config_example.kernel_config.himem_start,
        .BuildBootparams,
        .LoadCmdline CMDLINE_START config_example.kernel_config.cmdline,
        .WriteBootparams ZEROPG_START
          (bootparams_with_cmdline
            { hdr := { cmd_line_ptr := 0, cmdline_size := 0 }, rest := 42 }
            config_example.kernel_config.cmdline)])
    ∧ (bootparams_with_cmdline
        { hdr := { cmd_line_ptr := 0, cmdline_size := 0 }, rest := 42 }
        config_example.kernel_config.cmdline).hdr.cmdline_size =
        config_example.kernel_config.cmdline.length + 1 :=
  have h := c8_boot_addresses boot_host_all_ok config_example.kernel_config
    0x1000000 { hdr := { cmd_line_ptr := 0, cmdline_size := 0 }, rest := 42 }
    rfl rfl rfl rfl rfl rfl (by decide)
  ⟨h.1, h.2.2.1⟩

/-- Unfolding of the activation pass when the head device wires
successfully. -/
theorem activate_devices_cons_true (wire_ok : Nat → Bool) (d : Nat)
    (ds : List Nat) (hw : wire_ok d = true) :
    activate_devices wire_ok (d :: ds) =
      (Effect.SetupInterrupt d :: Effect.AddSubscriber d ::
        (activate_devices wire_ok ds).1, (activate_devices wire_ok ds).2) := by
  rcases hrec : activate_devices wire_ok ds with ⟨tr, ok⟩
  simp [activate_devices, hw, hrec]

/-- Unfolding of the activation pass when wiring the head device fails:
the `.unwrap()` panic stops the pass. -/
theorem activate_devices_cons_false (wire_ok : Nat → Bool) (d : Nat)
    (ds : List Nat) (hw : wire_ok d = false) :
    activate_devices wire_ok (d :: ds) = ([.SetupInterrupt d], false) := by
  simp [activate_devices, hw]

/-- The activation pass emits only interrupt-wiring and subscription
effects, never a `StartVcpus`. -/
theorem activate_devices_no_start (wire_ok : Nat → Bool) (ds : List Nat) :
    Effect.StartVcpus ∉ (activate_devices wire_ok ds).1 := by
  induction ds with
  | nil => simp [activate_devices]
  | cons d rest ih =>
    by_cases hw : wire_ok d
    · rw [activate_devices_cons_true wire_ok d rest hw]
      simp only [List.mem_cons]
      rintro (hc | hc | hc)
      · exact Effect.noConfusion hc
      · exact Effect.noConfusion hc
      · exact ih hc
    · rw [activate_devices_cons_false wire_ok d rest (Bool.eq_false_iff.mpr hw)]
      simp

/-- The activation pass completes exactly when every dormant device's
interrupt wiring succeeds. -/
theorem activate_devices_flag_iff (wire_ok : Nat → Bool) (ds : List Nat) :
    (activate_devices wire_ok ds).2 = true ↔ ∀ d ∈ ds, wire_ok d = true := by
  induction ds with
  | nil => simp [activate_devices]
  | cons d rest ih =>
    by_cases hw : wire_ok d
    · rw [activate_devices_cons_true wire_ok d rest hw]
      simp only [List.forall_mem_cons, hw, true_and]
      exact ih
    · rw [activate_devices_cons_false wire_ok d rest (Bool.eq_false_iff.mpr hw)]
      simp only [List.forall_mem_cons]
      constructor
      · intro hfalse
        exact absurd hfalse Bool.false_ne_true
      · intro hc
        exact absurd hc.1 hw

/-- When every wiring succeeds, the activation pass wires the interrupt
path and enrolls the subscriber of every dormant device. -/
theorem activate_devices_mem (wire_ok : Nat → Bool) (ds : List Nat)
    (hall : ∀ d ∈ ds, wire_ok d = true) :
    ∀ d ∈ ds, Effect.SetupInterrupt d ∈ (activate_devices wire_ok ds).1
      ∧ Effect.AddSubscriber d ∈ (activate_devices wire_ok ds).1 := by
  induction ds with
  | nil => simp
  | cons d0 rest ih =>
    have hw : wire_ok d0 = true := hall d0 (List.mem_cons_self d0 rest)
    rw [activate_devices_cons_true wire_ok d0 rest hw]
    intro d hd
    rcases List.mem_cons.mp hd with rfl | hd
    · exact ⟨List.mem_cons_self _ _,
        List.mem_cons_of_mem _ (List.mem_cons_self _ _)⟩
    · have hrest := ih (fun x hx => hall x (List.mem_cons_of_mem _ hx)) d hd
      exact ⟨List.mem_cons_of_mem _ (List.mem_cons_of_mem _ hrest.1),
        List.mem_cons_of_mem _ (List.mem_cons_of_mem _ hrest.2)⟩

/-- C5: in `run`, activation of every dormant device (wiring its
interrupt path and enrolling it as an event subscriber) strictly precedes
`vm.run()`: when every wiring succeeds the trace is the activation trace
— which contains the wiring and enrollment of every device and no
`StartVcpus` — followed by the single final `StartVcpus`; and when wiring
fails for any device, the cores are never started. -/
theorem c5_activation_precedes_start (wire_ok : Nat → Bool)
    (vm_run_ok : Bool) (s : VMMState) :
    ((∀ d ∈ s.dormant_devices, wire_ok d = true) →
      (vmm_run wire_ok vm_run_ok s).1 =
        (activate_devices wire_ok s.dormant_devices).1 ++ [Effect.StartVcpus]
      ∧ Effect.StartVcpus ∉ (activate_devices wire_ok s.dormant_devices).1
      ∧ ∀ d ∈ s.dormant_devices,
          Effect.SetupInterrupt d ∈ (activate_devices wire_ok s.dormant_devices).1
          ∧ Effect.AddSubscriber d ∈ (activate_devices wire_ok s.dormant_devices).1)
    ∧ ((∃ d ∈ s.dormant_devices, wire_ok d = false) →
      Effect.StartVcpus ∉ (vmm_run wire_ok vm_run_ok s).1) := by
  constructor
  · intro hall
    have hflag : (activate_devices wire_ok s.dormant_devices).2 = true :=
      (activate_devices_flag_iff wire_ok s.dormant_devices).mpr hall
    rcases hact : activate_devices wire_ok s.dormant_devices with ⟨tr, ok⟩
    rw [hact] at hflag
    subst hflag
    refine ⟨by simp [vmm_run, hact], ?_, ?_⟩
    · have := activate_devices_no_start wire_ok s.dormant_devices
      rw [hact] at this
      exact this
    · have := activate_devices_mem wire_ok s.dormant_devices hall
      rw [hact] at this
      exact this
  · rintro ⟨d, hd, hfail⟩
    have hflag : (activate_devices wire_ok s.dormant_devices).2 ≠ true := by
      intro htrue
      have := (activate_devices_flag_iff wire_ok s.dormant_devices).mp htrue d hd
      rw [hfail] at this
      exact Bool.false_ne_true this
    rcases hact : activate_devices wire_ok s.dormant_devices with ⟨tr, ok⟩
    rw [hact] at hflag
    have hok : ok = false := by
      cases ok
      · rfl
      · exact absurd rfl hflag
    subst hok
    have hns := activate_devices_no_start wire_ok s.dormant_devices
    rw [hact] at hns
    simpa [vmm_run, hact] using hns

/-- C5 witness: with two dormant devices where wiring device 1 fails, the
cores are never started. -/
theorem c5_activation_precedes_start_witness :
    Effect.StartVcpus ∉
      (vmm_run (fun d => d ≠ 1) true
        { state_all_ok with dormant_devices := [0, 1, 2] }).1 :=
  (c5_activation_precedes_start (fun d => d ≠ 1) true
    { state_all_ok with dormant_devices := [0, 1, 2] }).2
    ⟨1, by decide, by decide⟩

/-- Inversion for `vmm_new`: a successful construction yields exactly the
state built in `new` — the computed memory regions, a fresh device
manager, the serial console's PIO registration, and an empty
`dormant_devices`. -/
theorem vmm_new_ok_state (h : Host) (config : VMMConfig) (s : VMMState)
    (hs : (vmm_new h config).1 = .ok s) :
    s = { guest_memory_regions :=
            create_guest_memory_regions config.memory_config.mem_size_mib
          num_vcpus := config.vcpu_config.num_vcpus
          device_mgr := some 0
          pio_registrations := [(0x3f8, 0x8)]
          dormant_devices := [] } := by
  rcases hke : h.kvm_new_err with _ | e0
  · by_cases hv : h.api_version = KVM_API_VERSION
    · rcases hcc : check_kvm_capabilities h.supports with e1 | u
      · simp [vmm_new, hke, hv, hcc] at hs
      · cases u
        rcases hfr : h.from_ranges_err with _ | e2
        · rcases hkv : h.kvm_vm_new_err with _ | e3
          · rcases hem : h.event_mgr_new_err with _ | e4
            · rcases hef : h.eventfd_new_err with _ | e5
              · rcases hec : h.eventfd_clone_err with _ | e6
                · by_cases hrp : h.register_pio_ok
                  · simp [vmm_new, hke, hv, hcc, hfr, hkv, hem,
                      configure_pio_devices, hef, hec, hrp] at hs
                    rw [← hs]
                  · simp [vmm_new, hke, hv, hcc, hfr, hkv, hem,
                      configure_pio_devices, hef, hec, hrp] at hs
                · simp [vmm_new, hke, hv, hcc, hfr, hkv, hem,
                    configure_pio_devices, hef, hec] at hs
              · simp [vmm_new, hke, hv, hcc, hfr, hkv, hem,
                  configure_pio_devices, hef] at hs
            · simp [vmm_new, hke, hv, hcc, hfr, hkv, hem] at hs
          · simp [vmm_new, hke, hv, hcc, hfr, hkv] at hs
        · simp [vmm_new, hke, hv, hcc, hfr] at hs
    · simp [vmm_new, hke, hv] at hs
  · simp [vmm_new, hke] at hs

/-- Inversion for `create_vcpus`: on success the state is unchanged except
that the device manager has been taken out of its `Option`. -/
theorem create_vcpus_ok_state (vh : VcpuHost) (s : VMMState)
    (vcpu_cfg : VcpuConfig) (kl : Nat) (s2 : VMMState)
    (hs : (create_vcpus vh s vcpu_cfg kl).1 = .ok s2) :
    s2 = { s with device_mgr := none } := by
  rcases hdm : s.device_mgr with _ | dm
  · simp [create_vcpus, hdm] at hs
  · rcases hsup : vh.supported_cpuid_res with e | base
    · simp [create_vcpus, hdm, hsup] at hs
    · rcases hloop : create_vcpus_loop vh dm vcpu_cfg.num_vcpus kl base
          (List.range vcpu_cfg.num_vcpus) with ⟨res, tr⟩
      cases res with
      | ok u =>
        cases u
        simp [create_vcpus, hdm, hsup, hloop] at hs
        rw [← hs]
      | error e => simp [create_vcpus, hdm, hsup, hloop] at hs

/-- C3: after any successful construction — `VMM::new` or
`TryFrom<VMMConfig>` — the dormant-device registry is empty (the serial
console is bus-registered but never inserted into it), so the activation
pass at the start of `run` iterates over zero devices: the run trace is
the bare `StartVcpus` with no interrupt wiring and no event-manager
enrollment for any device. -/
theorem c3_dormant_registry_empty (h : Host) (bh : BootHost) (vh : VcpuHost)
    (config : VMMConfig) (wire_ok : Nat → Bool) (vm_run_ok : Bool) :
    (∀ s, (vmm_new h config).1 = .ok s →
      s.dormant_devices = []
      ∧ (vmm_run wire_ok vm_run_ok s).1 = [Effect.StartVcpus])
    ∧ (∀ s, (vmm_try_from h bh vh config).1 = .ok s →
      s.dormant_devices = []
      ∧ (vmm_run wire_ok vm_run_ok s).1 = [Effect.StartVcpus]) := by
  have run_empty : ∀ s : VMMState, s.dormant_devices = [] →
      (vmm_run wire_ok vm_run_ok s).1 = [Effect.StartVcpus] := by
    intro s hdorm
    simp [vmm_run, hdorm, activate_devices]
  constructor
  · intro s hs
    have hstate := vmm_new_ok_state h config s hs
    have hdorm : s.dormant_devices = [] := by rw [hstate]
    exact ⟨hdorm, run_empty s hdorm⟩
  · intro s hs
    rcases hnew : vmm_new h config with ⟨out1, tr1⟩
    cases out1 with
    | ok s1 =>
      have hs1 := vmm_new_ok_state h config s1 (by rw [hnew])
      rcases hck : configure_kernel bh config.kernel_config with ⟨res2, tr2⟩
      cases res2 with
      | ok kl =>
        rcases hcv : create_vcpus vh s1 config.vcpu_config kl with ⟨out3, tr3⟩
        cases out3 with
        | ok s3 =>
          have hs3 := create_vcpus_ok_state vh s1 config.vcpu_config kl s3
            (by rw [hcv])
          have hfinal : s = s3 := by
            simp [vmm_try_from, hnew, hck, hcv] at hs
            rw [hs]
          have hdorm : s.dormant_devices = [] := by
            rw [hfinal, hs3]
            show s1.dormant_devices = []
            rw [hs1]
          exact ⟨hdorm, run_empty s hdorm⟩
        | err e => simp [vmm_try_from, hnew, hck, hcv] at hs
        | panicked => simp [vmm_try_from, hnew, hck, hcv] at hs
      | error e => simp [vmm_try_from, hnew, hck] at hs
    | err e => simp [vmm_try_from, hnew] at hs
    | panicked => simp [vmm_try_from, hnew] at hs

/-- C3 witness: the fully successful construction from `config_example`
yields `state_all_ok`, whose dormant registry is empty and whose run
trace is the bare `StartVcpus`. -/
theorem c3_dormant_registry_empty_witness :
    state_all_ok.dormant_devices = []
    ∧ (vmm_run (fun _ => true) true state_all_ok).1 = [Effect.StartVcpus] :=
  (c3_dormant_registry_empty host_all_ok boot_host_all_ok vcpu_host_all_ok
    config_example (fun _ => true) true).2 state_all_ok (by decide)

/-- The per-vCPU state the creation loop hands to `vm.create_vcpu` for a
given index. -/
def vcpu_state_for (vh : VcpuHost) (num_vcpus kernel_load : Nat)
    (base : List Nat) (index : Nat) : VcpuState :=
  { kernel_load_addr := kernel_load
    cpuid := vh.filter_cpuid index num_vcpus base
    id := index
    zero_page_start := ZEROPG_START }

/-- When every creation succeeds, the loop creates one vCPU per index in
list order. -/
theorem create_vcpus_loop_all_ok (vh : VcpuHost) (dm num_vcpus kl : Nat)
    (base : List Nat) (l : List Nat)
    (hall : ∀ i ∈ l, vh.create_vcpu_err i = none) :
    create_vcpus_loop vh dm num_vcpus kl base l =
      (.ok (), l.map (fun i =>
        Effect.CreateVcpu dm (vcpu_state_for vh num_vcpus kl base i))) := by
  induction l with
  | nil => rfl
  | cons i rest ih =>
    have hi := hall i (List.mem_cons_self i rest)
    have hrest := ih (fun x hx => hall x (List.mem_cons_of_mem _ hx))
    simp [create_vcpus_loop, hi, hrest, vcpu_state_for]

/-- When creation fails at index `k` after the successful prefix `l1`,
the loop aborts at once: exactly the prefix has been created and the
typed error `Vm` is returned. -/
theorem create_vcpus_loop_fail (vh : VcpuHost) (dm num_vcpus kl : Nat)
    (base : List Nat) (l1 : List Nat) (k : Nat) (l2 : List Nat) (e : Nat)
    (hok : ∀ i ∈ l1, vh.create_vcpu_err i = none)
    (hk : vh.create_vcpu_err k = some e) :
    create_vcpus_loop vh dm num_vcpus kl base (l1 ++ k :: l2) =
      (.error (.Vm e), l1.map (fun i =>
        Effect.CreateVcpu dm (vcpu_state_for vh num_vcpus kl base i))) := by
  induction l1 with
  | nil => simp [create_vcpus_loop, hk]
  | cons i rest ih =>
    have hi := hok i (List.mem_cons_self i rest)
    have hrest := ih (fun x hx => hok x (List.mem_cons_of_mem _ hx))
    simp [create_vcpus_loop, hi, hrest, vcpu_state_for]

/-- The creation loop never emits a `StartVcpus` effect. -/
theorem create_vcpus_loop_no_start (vh : VcpuHost) (dm num_vcpus kl : Nat)
    (base : List Nat) (l : List Nat) :
    Effect.StartVcpus ∉ (create_vcpus_loop vh dm num_vcpus kl base l).2 := by
  induction l with
  | nil => simp [create_vcpus_loop]
  | cons i rest ih =>
    rcases he : vh.create_vcpu_err i with _ | e
    · rcases hrec : create_vcpus_loop vh dm num_vcpus kl base rest with ⟨res, tr⟩
      rw [hrec] at ih
      simp [create_vcpus_loop, he, hrec]
      exact ih
    · simp [create_vcpus_loop, he]

/-- C9: `create_vcpus` creates exactly `num_vcpus` execution contexts
sequentially, one per index in `0..num_vcpus` in order, each with `id`
equal to its index, the shared kernel entry address, the shared zero-page
address `ZEROPG_START`, a CPUID derived from the same base set filtered
per `(index, num_vcpus)`, and the same shared device-manager reference;
if creating any vCPU fails, the whole construction aborts with `Vm`
right there — only the prefix was created — and `create_vcpus` never
starts cores. -/
theorem c9_create_vcpus (vh : VcpuHost) (s : VMMState)
    (vcpu_cfg : VcpuConfig) (kl : Nat) (dm : Nat) (base : List Nat)
    (hdm : s.device_mgr = some dm)
    (hbase : vh.supported_cpuid_res = .ok base) :
    ((∀ i, i < vcpu_cfg.num_vcpus → vh.create_vcpu_err i = none) →
      create_vcpus vh s vcpu_cfg kl =
        (.ok { s with device_mgr := none },
         (List.range vcpu_cfg.num_vcpus).map (fun i =>
           Effect.CreateVcpu dm
             (vcpu_state_for vh vcpu_cfg.num_vcpus kl base i))))
    ∧ (∀ l1 k l2 e, List.range vcpu_cfg.num_vcpus = l1 ++ k :: l2 →
      (∀ i ∈ l1, vh.create_vcpu_err i = none) →
      vh.create_vcpu_err k = some e →
      create_vcpus vh s vcpu_cfg kl =
        (.err (.Vm e),
         l1.map (fun i =>
           Effect.CreateVcpu dm
             (vcpu_state_for vh vcpu_cfg.num_vcpus kl base i))))
    ∧ Effect.StartVcpus ∉ (create_vcpus vh s vcpu_cfg kl).2 := by
  refine ⟨?_, ?_, ?_⟩
  · intro hall
    have hloop := create_vcpus_loop_all_ok vh dm vcpu_cfg.num_vcpus kl base
      (List.range vcpu_cfg.num_vcpus)
      (fun i hi => hall i (List.mem_range.mp hi))
    simp [create_vcpus, hdm, hbase, hloop]
  · intro l1 k l2 e hdecomp hok hk
    have hloop := create_vcpus_loop_fail vh dm vcpu_cfg.num_vcpus kl base
      l1 k l2 e hok hk
    rw [← hdecomp] at hloop
    simp [create_vcpus, hdm, hbase, hloop]
  · have hns := create_vcpus_loop_no_start vh dm vcpu_cfg.num_vcpus kl base
      (List.range vcpu_cfg.num_vcpus)
    rcases hloop : create_vcpus_loop vh dm vcpu_cfg.num_vcpus kl base
        (List.range vcpu_cfg.num_vcpus) with ⟨res, tr⟩
    rw [hloop] at hns
    cases res with
    | ok u =>
      cases u
      simp [create_vcpus, hdm, hbase, hloop]
      exact hns
    | error e =>
      simp [create_vcpus, hdm, hbase, hloop]
      exact hns

/-- C9 witness: with two requested vCPUs and creation failing at index 1,
only vCPU 0 (with its filtered CPUID, the shared entry address and the
zero page) was created and the construction aborts with `Vm 9`. -/
theorem c9_create_vcpus_witness :
    create_vcpus vcpu_host_fails_at_one state_pre_vcpus
        { num_vcpus := 2 } 0x1000000 =
      (.err (.Vm 9),
       [Effect.CreateVcpu 0
         { kernel_load_addr := 0x1000000
           cpuid := [3, 5, 0, 2]
           id := 0
           zero_page_start := ZEROPG_START }]) := by
  have h := (c9_create_vcpus vcpu_host_fails_at_one state_pre_vcpus
    { num_vcpus := 2 } 0x1000000 0 [3, 5] rfl rfl).2.1
    [0] 1 [] 9 (by decide) (by decide) (by decide)
  rw [h]
  decide

end VmmRef
